import Mathlib

/-!
Verification of the felice-search-engine client (src/Search.tsx).

The development shallowly embeds the result pipeline of the source file:
the keyword / domain content filter (`isContentAppropriate`,
`isDomainExcluded`, `filterResults`), the favicon derivation
(`getFaviconUrl`), and the session controller (`handleSearch`,
`handlePageChange`).  JavaScript values that may be `undefined` are
embedded as `Option String`; a thrown exception is embedded as the
`Except.error` branch; the `||` fallback operator of JavaScript is
embedded by `jsOr` (treating `undefined` and the empty string as falsy).
-/

namespace Felice

/-- Raw API item as consumed by `filterResults` (the source types it `any`;
each field may be absent, i.e. `undefined`, embedded as `none`). -/
structure RawItem where
  name : Option String
  url : Option String
  snippet : Option String
  displayUrl : Option String
  contentUrl : Option String
  thumbnailUrl : Option String
deriving DecidableEq, Repr

/-- Normalized search result as actually produced by the `.map` in
`filterResults`.  The TypeScript interface declares `name`, `url` and
`snippet` as `string`, but the mapping copies possibly-`undefined` raw
fields verbatim, so the embedding keeps them optional. -/
structure SearchResult where
  name : Option String
  url : Option String
  snippet : Option String
  displayUrl : Option String
  faviconUrl : String
  contentUrl : Option String
  thumbnailUrl : Option String
deriving DecidableEq, Repr

/-- JavaScript `a || b` on string-or-undefined values: returns `b` when `a`
is falsy (`undefined` or the empty string), else `a`. -/
def jsOr (a b : Option String) : Option String :=
  match a with
  | none => b
  | some s => if s = "" then b else some s

/-- JavaScript `a || d` where the right operand is a string literal default,
as in `item.name || ''`. -/
def jsOrStr (a : Option String) (d : String) : String :=
  match a with
  | none => d
  | some s => if s = "" then d else s

/-- JavaScript string coercion of a string-or-undefined value, as performed
by the `URL` constructor on a non-string argument: `undefined` becomes the
string "undefined". -/
def jsToString (v : Option String) : String :=
  match v with
  | none => "undefined"
  | some s => s

/-- Does the character list start with the pattern list?  Helper for the
embedding of JavaScript `String.prototype.includes`. -/
def listStartsWith : List Char → List Char → Bool
  | [], _ => true
  | _ :: _, [] => false
  | p :: ps, c :: cs => (p = c) && listStartsWith ps cs

/-- Is the pattern a contiguous sublist of the character list?  Helper for
the embedding of JavaScript `String.prototype.includes`. -/
def listHasSub (pat : List Char) : List Char → Bool
  | [] => pat.isEmpty
  | c :: cs => listStartsWith pat (c :: cs) || listHasSub pat cs

/-- Embedding of JavaScript `content.toLowerCase()` as a character-wise
ASCII lowercase of the character list (the blocklists are ASCII). -/
def lowerChars (s : String) : List Char :=
  s.toList.map Char.toLower

/-- The fixed keyword blocklist of the source (`inappropriateKeywords`). -/
def inappropriateKeywords : List String := ["keyword1", "keyword2", "keyword3"]

/-- The fixed domain blocklist of the source (`excludedDomains`). -/
def excludedDomains : List String := ["example.com", "anotherexample.com"]

/-- Source `isContentAppropriate`: the for-loop returns `false` as soon as
one blocklisted keyword occurs, via `content.toLowerCase().includes(keyword)`
(case-insensitive substring containment), and `true` when none does. -/
def isContentAppropriate (content : String) : Bool :=
  inappropriateKeywords.all fun keyword =>
    !(listHasSub keyword.toList (lowerChars content))

/-- Does the content contain some blocklisted keyword (the spec-side
formulation of the keyword rule; the complement of `isContentAppropriate`)? -/
def containsBlocked (content : String) : Bool :=
  inappropriateKeywords.any fun keyword =>
    listHasSub keyword.toList (lowerChars content)

/-- Scheme/rest split of the platform URL model: finds the first "://" in
the character list and returns the text before and after it. -/
def findSchemeSep : List Char → Option (List Char × List Char)
  | [] => none
  | ':' :: '/' :: '/' :: rest => some ([], rest)
  | c :: rest =>
    match findSchemeSep rest with
    | none => none
    | some (a, b) => some (c :: a, b)

/-- Is the character admissible in a URL scheme? -/
def isSchemeChar (c : Char) : Bool :=
  c.isAlpha || c.isDigit || c = '+' || c = '-' || c = '.'

/-- Does the character terminate the host portion of a URL authority? -/
def isHostEnd (c : Char) : Bool :=
  c = '/' || c = '?' || c = '#' || c = ':'

/-- Model of the platform WHATWG URL constructor (`new URL(link)`), which
is an external browser builtin, not repository code: for an absolute URL of
the form scheme://host/... it returns the (lowercased) hostname; for a
string with no scheme, an empty host, or an invalid scheme it returns
`none`, standing for the TypeError the constructor throws.  The model
covers the scheme://host shape the source relies on. -/
def parseHostname (link : String) : Option String :=
  match findSchemeSep link.toList with
  | none => none
  | some (scheme, rest) =>
    match scheme with
    | [] => none
    | c :: _ =>
      if c.isAlpha && scheme.all isSchemeChar then
        let host := rest.takeWhile fun ch => !(isHostEnd ch)
        if host.isEmpty then none
        else some (String.mk (host.map Char.toLower))
      else none

/-- Source `isDomainExcluded`: parses the link with `new URL` (which may
throw, embedded as `Except.error`) and tests exact membership of the
hostname in the domain blocklist. -/
def isDomainExcluded (link : String) : Except String Bool :=
  match parseHostname link with
  | none => Except.error "Invalid URL"
  | some h => Except.ok (excludedDomains.contains h)

/-- Source `getFaviconUrl`: parses the link with `new URL` (which may
throw) and builds the favicon-service URL from the hostname. -/
def getFaviconUrl (link : String) : Except String String :=
  match parseHostname link with
  | none => Except.error "Invalid URL"
  | some h => Except.ok ("https://www.google.com/s2/favicons?domain=" ++ h)

/-- Title text as computed in the filter predicate: `item.name || ''`. -/
def titleOf (item : RawItem) : String := jsOrStr item.name ""

/-- Snippet text as computed in the filter predicate: `item.snippet || ''`. -/
def snippetOf (item : RawItem) : String := jsOrStr item.snippet ""

/-- Link as computed in the filter predicate:
`item.url || item.contentUrl || ''`. -/
def linkOf (item : RawItem) : String := jsOrStr (jsOr item.url item.contentUrl) ""

/-- The filter predicate of `filterResults`:
`isContentAppropriate(title) && isContentAppropriate(snippet) &&
!isDomainExcluded(link)`.  The `&&` short-circuits, so the URL is only
parsed (and can only throw) when both keyword checks pass. -/
def keepItem (item : RawItem) : Except String Bool :=
  if isContentAppropriate (titleOf item) then
    if isContentAppropriate (snippetOf item) then
      match isDomainExcluded (linkOf item) with
      | Except.error e => Except.error e
      | Except.ok b => Except.ok (!b)
    else Except.ok false
  else Except.ok false

/-- `items.filter(...)` with a throwing predicate: items are tested in
order; a thrown exception aborts the whole call. -/
def filterAux : List RawItem → Except String (List RawItem)
  | [] => Except.ok []
  | item :: rest =>
    match keepItem item with
    | Except.error e => Except.error e
    | Except.ok keep =>
      match filterAux rest with
      | Except.error e => Except.error e
      | Except.ok tail => Except.ok (if keep then item :: tail else tail)

/-- The `.map` body of `filterResults`: builds the normalized result;
`getFaviconUrl(item.url || item.contentUrl)` may throw (the argument is
not defaulted with `|| ''` there, so an absent link is coerced to the
string "undefined" by the URL constructor). -/
def normalizeItem (item : RawItem) : Except String SearchResult :=
  match getFaviconUrl (jsToString (jsOr item.url item.contentUrl)) with
  | Except.error e => Except.error e
  | Except.ok fav =>
    Except.ok
      { name := item.name
        url := jsOr item.url item.contentUrl
        snippet := item.snippet
        displayUrl := jsOr item.displayUrl item.contentUrl
        faviconUrl := fav
        contentUrl := item.contentUrl
        thumbnailUrl := item.thumbnailUrl }

/-- `kept.map(item => ({...}))` with a throwing body, applied in order. -/
def mapItems : List RawItem → Except String (List SearchResult)
  | [] => Except.ok []
  | item :: rest =>
    match normalizeItem item with
    | Except.error e => Except.error e
    | Except.ok r =>
      match mapItems rest with
      | Except.error e => Except.error e
      | Except.ok tail => Except.ok (r :: tail)

/-- Source `filterResults`: filter then map; an exception thrown by either
stage propagates to the caller. -/
def filterResults (items : List RawItem) : Except String (List SearchResult) :=
  match filterAux items with
  | Except.error e => Except.error e
  | Except.ok kept => mapItems kept

/-- Pure shadow of the domain rule, defined on parse success and `false`
on parse failure; used only to state theorems about successful runs. -/
def domainExcludedPure (link : String) : Bool :=
  match parseHostname link with
  | none => false
  | some h => excludedDomains.contains h

/-- Pure shadow of the filter predicate on the crash-free fragment: keep an
item exactly when neither title nor snippet contains a blocklisted keyword
and the link hostname is not blocklisted. -/
def keepPure (item : RawItem) : Bool :=
  !(containsBlocked (titleOf item) || containsBlocked (snippetOf item)) &&
    !(domainExcludedPure (linkOf item))

/-- Pure shadow of `normalizeItem`, defined for items whose link parses;
used only to state theorems about successful runs. -/
def normalizePure (item : RawItem) : SearchResult :=
  { name := item.name
    url := jsOr item.url item.contentUrl
    snippet := item.snippet
    displayUrl := jsOr item.displayUrl item.contentUrl
    faviconUrl :=
      match parseHostname (jsToString (jsOr item.url item.contentUrl)) with
      | none => ""
      | some h => "https://www.google.com/s2/favicons?domain=" ++ h
    contentUrl := item.contentUrl
    thumbnailUrl := item.thumbnailUrl }

/-- The two search categories (`'web' | 'images'`). -/
inductive Tab
  | web
  | images
deriving DecidableEq, Repr

/-- The per-session state held by the component's `useState` hooks. -/
structure Session where
  query : String
  results : List SearchResult
  tab : Tab
  currentPage : Int
  totalResults : Nat
  loading : Bool
  error : Option String
  hasSearched : Bool
deriving DecidableEq, Repr

/-- Source `resultsPerPage`: fixed page size of 20 results. -/
def resultsPerPage : Nat := 20

/-- The user-visible message set on any caught fetch failure. -/
def fetchErrorMessage : String := "An error occurred while fetching search results."

/-- The outbound HTTP request built by `handleSearch`: endpoint URL plus
the `q`, `count` and `offset` query parameters. -/
structure Request where
  url : String
  q : String
  count : Nat
  offset : Int
deriving DecidableEq, Repr

/-- The `webPages` object of a web search response. -/
structure WebPages where
  value : List RawItem
  totalEstimatedMatches : Option Nat
deriving DecidableEq, Repr

/-- The response body shape `handleSearch` reads: `value` (images),
`webPages` (web) and the top-level `totalEstimatedMatches` may each be
absent. -/
structure ApiResponse where
  value : Option (List RawItem)
  webPages : Option WebPages
  totalEstimatedMatches : Option Nat
deriving DecidableEq, Repr

/-- Synchronous prefix of `handleSearch`, up to issuing the request:
sets `loading`, clears `error`, computes the offset
`(page - 1) * resultsPerPage` and selects the endpoint by category. -/
def handleSearchStart (s : Session) (searchType : Tab) (page : Int) :
    Session × Request :=
  ({ s with loading := true, error := none },
   { url :=
       match searchType with
       | Tab.images => "https://api.bing.microsoft.com/v7.0/images/search"
       | Tab.web => "https://api.bing.microsoft.com/v7.0/search"
     q := s.query
     count := resultsPerPage
     offset := (page - 1) * (resultsPerPage : Int) })

/-- Item extraction
`searchType === 'images' ? response.data.value : response.data.webPages.value`:
for web responses a missing `webPages` throws a TypeError; for image
responses a missing `value` leaves `items` undefined, on which the
subsequent `items.filter` throws — both embedded as `Except.error`. -/
def extractItems (searchType : Tab) (r : ApiResponse) :
    Except String (List RawItem) :=
  match searchType with
  | Tab.images =>
    match r.value with
    | none => Except.error "TypeError"
    | some v => Except.ok v
  | Tab.web =>
    match r.webPages with
    | none => Except.error "TypeError"
    | some wp => Except.ok wp.value

/-- JavaScript `a || b` on number-or-undefined values (a present `0` is
falsy and falls through). -/
def jsOrNum (a b : Option Nat) : Option Nat :=
  match a with
  | none => b
  | some n => if n = 0 then b else some n

/-- Total count extraction
`response.data.totalEstimatedMatches || response.data.webPages?.totalEstimatedMatches || 0`. -/
def totalOf (r : ApiResponse) : Nat :=
  (jsOrNum r.totalEstimatedMatches
    (match r.webPages with
     | none => none
     | some wp => wp.totalEstimatedMatches)).getD 0

/-- Resolution of one `handleSearch` dispatch: on a network failure, or on
any exception thrown inside the `try` block (item extraction or
`filterResults`), the `catch` sets the error message and leaves the other
fields alone; on full success it stores the filtered results, the total,
the page, and marks the session as searched.  `finally` clears `loading`
on every path. -/
def handleSearchResolve (s : Session) (searchType : Tab) (page : Int)
    (resp : Except Unit ApiResponse) : Session :=
  match resp with
  | Except.error _ => { s with error := some fetchErrorMessage, loading := false }
  | Except.ok r =>
    match extractItems searchType r with
    | Except.error _ => { s with error := some fetchErrorMessage, loading := false }
    | Except.ok items =>
      match filterResults items with
      | Except.error _ => { s with error := some fetchErrorMessage, loading := false }
      | Except.ok l =>
        { s with
            results := l
            totalResults := totalOf r
            currentPage := page
            hasSearched := true
            loading := false }

/-- `Math.ceil(totalResults / resultsPerPage)`: the number of pages. -/
def pageCount (totalResults : Nat) : Nat :=
  (totalResults + resultsPerPage - 1) / resultsPerPage

/-- Source `handlePageChange`: dispatches `handleSearch(tab, newPage)` when
`newPage > 0 && newPage <= Math.ceil(totalResults / resultsPerPage)`, and
does nothing otherwise.  The embedding returns the session after the
synchronous part of the action together with the request issued, `none`
when no dispatch happens. -/
def handlePageChange (s : Session) (newPage : Int) :
    Session × Option Request :=
  if 0 < newPage ∧ newPage ≤ (pageCount s.totalResults : Int) then
    let sr := handleSearchStart s s.tab newPage
    (sr.1, some sr.2)
  else (s, none)

/-! ### Helper lemmas -/

theorem all_not_eq_not_any (l : List String) (p : String → Bool) :
    (l.all fun x => !(p x)) = !(l.any p) := by
  induction l with
  | nil => rfl
  | cons a t ih => simp [List.all_cons, List.any_cons, ih]

theorem isContentAppropriate_eq (c : String) :
    isContentAppropriate c = !(containsBlocked c) :=
  all_not_eq_not_any inappropriateKeywords _

theorem parseHostname_empty : parseHostname "" = none := rfl

theorem parseHostname_undef : parseHostname "undefined" = none := by decide

/-- When the filter predicate returns (rather than throws), its value is
the pure shadow predicate. -/
theorem keepItem_ok {item : RawItem} {b : Bool}
    (h : keepItem item = Except.ok b) : b = keepPure item := by
  unfold keepItem at h
  unfold keepPure
  rw [isContentAppropriate_eq (titleOf item), isContentAppropriate_eq (snippetOf item)] at h
  cases hcb1 : containsBlocked (titleOf item) with
  | true =>
    rw [hcb1] at h
    simp at h
    simp [h]
  | false =>
    rw [hcb1] at h
    cases hcb2 : containsBlocked (snippetOf item) with
    | true =>
      rw [hcb2] at h
      simp at h
      simp [h]
    | false =>
      rw [hcb2] at h
      simp only [Bool.not_false, if_true] at h
      unfold isDomainExcluded at h
      unfold domainExcludedPure
      cases hp : parseHostname (linkOf item) with
      | none => rw [hp] at h; cases h
      | some hst =>
        rw [hp] at h
        cases h
        simp

/-- A predicate value of `true` is only possible after a successful URL
parse of the item's link. -/
theorem keepItem_ok_true {item : RawItem}
    (h : keepItem item = Except.ok true) :
    ∃ hst, parseHostname (linkOf item) = some hst := by
  unfold keepItem at h
  by_cases h1 : isContentAppropriate (titleOf item) = true
  · rw [if_pos h1] at h
    by_cases h2 : isContentAppropriate (snippetOf item) = true
    · rw [if_pos h2] at h
      unfold isDomainExcluded at h
      cases hp : parseHostname (linkOf item) with
      | none => rw [hp] at h; cases h
      | some hst => exact ⟨hst, rfl⟩
    · rw [if_neg h2] at h; cases h
  · rw [if_neg h1] at h; cases h

/-- A successful filter pass computes exactly the pure filter. -/
theorem filterAux_ok {items : List RawItem} {kept : List RawItem}
    (h : filterAux items = Except.ok kept) :
    kept = items.filter keepPure := by
  induction items generalizing kept with
  | nil =>
    unfold filterAux at h
    cases h
    rfl
  | cons i rest ih =>
    unfold filterAux at h
    cases hk : keepItem i with
    | error e => rw [hk] at h; cases h
    | ok b =>
      rw [hk] at h
      cases hr : filterAux rest with
      | error e => rw [hr] at h; cases h
      | ok tail =>
        rw [hr] at h
        cases h
        have hb := keepItem_ok hk
        rw [List.filter_cons, ← hb, ← ih hr]

/-- When every item's predicate check returns, the filter pass succeeds
and computes the pure filter. -/
theorem filterAux_total {items : List RawItem}
    (h : ∀ i ∈ items, (keepItem i).isOk = true) :
    filterAux items = Except.ok (items.filter keepPure) := by
  induction items with
  | nil => rfl
  | cons i rest ih =>
    have hi := h i (List.mem_cons_self i rest)
    unfold filterAux
    cases hk : keepItem i with
    | error e => rw [hk] at hi; cases hi
    | ok b =>
      rw [ih fun j hj => h j (List.mem_cons_of_mem i hj)]
      have hb := keepItem_ok hk
      rw [List.filter_cons, ← hb]

/-- On a parsable link, the string handed to `getFaviconUrl` coincides with
the link tested by the filter predicate. -/
theorem jsToString_eq_linkOf {item : RawItem} {hst : String}
    (h : parseHostname (linkOf item) = some hst) :
    jsToString (jsOr item.url item.contentUrl) = linkOf item := by
  unfold linkOf at h ⊢
  cases hj : jsOr item.url item.contentUrl with
  | none =>
    rw [hj] at h
    rw [show jsOrStr none "" = "" from rfl] at h
    rw [parseHostname_empty] at h
    cases h
  | some s =>
    rw [hj] at h
    by_cases hs : s = ""
    · subst hs
      rw [show jsOrStr (some "") "" = "" from rfl] at h
      rw [parseHostname_empty] at h
      cases h
    · simp [jsToString, jsOrStr, hs]

/-- On a parsable link, normalization succeeds and produces the pure
shadow result. -/
theorem normalizeItem_ok_of_parse {item : RawItem} {hst : String}
    (h : parseHostname (linkOf item) = some hst) :
    normalizeItem item = Except.ok (normalizePure item) := by
  unfold normalizeItem normalizePure
  rw [jsToString_eq_linkOf h]
  unfold getFaviconUrl
  rw [h]

/-- When the map stage succeeds on every item of a kept list, it produces
the pure shadow results. -/
theorem mapItems_total {kept : List RawItem}
    (h : ∀ k ∈ kept, keepItem k = Except.ok true) :
    mapItems kept = Except.ok (kept.map normalizePure) := by
  induction kept with
  | nil => rfl
  | cons k rest ih =>
    obtain ⟨hst, hp⟩ := keepItem_ok_true (h k (List.mem_cons_self k rest))
    unfold mapItems
    rw [normalizeItem_ok_of_parse hp,
      ih fun j hj => h j (List.mem_cons_of_mem k hj), List.map_cons]

/-- A successful normalization copies the raw snippet field verbatim. -/
theorem normalizeItem_ok_snippet {item : RawItem} {r : SearchResult}
    (h : normalizeItem item = Except.ok r) : r.snippet = item.snippet := by
  unfold normalizeItem at h
  cases hf : getFaviconUrl (jsToString (jsOr item.url item.contentUrl)) with
  | error e => rw [hf] at h; cases h
  | ok fav => rw [hf] at h; cases h; rfl

/-- A successful normalization implies a non-empty url field. -/
theorem normalizeItem_ok_url {item : RawItem} {r : SearchResult}
    (h : normalizeItem item = Except.ok r) :
    ∃ s, r.url = some s ∧ s ≠ "" := by
  unfold normalizeItem at h
  cases hf : getFaviconUrl (jsToString (jsOr item.url item.contentUrl)) with
  | error e => rw [hf] at h; cases h
  | ok fav =>
    rw [hf] at h
    cases h
    unfold getFaviconUrl at hf
    cases hj : jsOr item.url item.contentUrl with
    | none =>
      rw [hj] at hf
      rw [show jsToString none = "undefined" from rfl, parseHostname_undef] at hf
      cases hf
    | some s =>
      refine ⟨s, rfl, ?_⟩
      intro hs
      subst hs
      rw [hj] at hf
      rw [show jsToString (some "") = "" from rfl, parseHostname_empty] at hf
      cases hf

/-- Every result of a successful map stage comes from one kept item. -/
theorem mapItems_ok_mem {kept : List RawItem} {l : List SearchResult}
    (h : mapItems kept = Except.ok l) {r : SearchResult} (hr : r ∈ l) :
    ∃ k ∈ kept, normalizeItem k = Except.ok r := by
  induction kept generalizing l with
  | nil =>
    unfold mapItems at h
    cases h
    cases hr
  | cons k rest ih =>
    unfold mapItems at h
    cases hk : normalizeItem k with
    | error e => rw [hk] at h; cases h
    | ok r0 =>
      rw [hk] at h
      cases hrest : mapItems rest with
      | error e => rw [hrest] at h; cases h
      | ok tail =>
        rw [hrest] at h
        cases h
        rcases List.mem_cons.mp hr with hr0 | hrt
        · exact ⟨k, List.mem_cons_self k rest, hr0 ▸ hk⟩
        · obtain ⟨j, hj, hje⟩ := ih hrest hrt
          exact ⟨j, List.mem_cons_of_mem k hj, hje⟩

/-- A successful map stage preserves the snippet fields pointwise. -/
theorem mapItems_ok_snippets {kept : List RawItem} {l : List SearchResult}
    (h : mapItems kept = Except.ok l) :
    l.map (fun r => r.snippet) = kept.map fun i => i.snippet := by
  induction kept generalizing l with
  | nil => unfold mapItems at h; cases h; rfl
  | cons k rest ih =>
    unfold mapItems at h
    cases hk : normalizeItem k with
    | error e => rw [hk] at h; cases h
    | ok r0 =>
      rw [hk] at h
      cases hrest : mapItems rest with
      | error e => rw [hrest] at h; cases h
      | ok tail =>
        rw [hrest] at h
        cases h
        rw [List.map_cons, List.map_cons, ih hrest,
          normalizeItem_ok_snippet hk]

/-- A successful `filterResults` run decomposes into a successful filter
pass and a successful map stage. -/
theorem filterResults_ok_split {items : List RawItem} {l : List SearchResult}
    (h : filterResults items = Except.ok l) :
    ∃ kept, filterAux items = Except.ok kept ∧ mapItems kept = Except.ok l := by
  unfold filterResults at h
  cases hf : filterAux items with
  | error e => rw [hf] at h; cases h
  | ok kept => rw [hf] at h; exact ⟨kept, rfl, h⟩

/-- A predicate that throws on the head item aborts `filterResults` with
that exception. -/
theorem filterResults_error_head {item : RawItem} {e : String}
    (rest : List RawItem) (h : keepItem item = Except.error e) :
    filterResults (item :: rest) = Except.error e := by
  unfold filterResults filterAux
  rw [h]

/-- A keyword-passing item with an unparsable link makes the filter
predicate throw. -/
theorem keepItem_error_of_malformed {item : RawItem}
    (ht : isContentAppropriate (titleOf item) = true)
    (hs : isContentAppropriate (snippetOf item) = true)
    (hl : parseHostname (linkOf item) = none) :
    keepItem item = Except.error "Invalid URL" := by
  unfold keepItem isDomainExcluded
  rw [if_pos ht, if_pos hs, hl]

/-! ### Concrete inputs used by counterexamples and witnesses -/

/-- A well-formed item that passes every filter rule. -/
def goodItemA : RawItem :=
  { name := some "Good", url := some "https://ok.com/x", snippet := some "fine",
    displayUrl := none, contentUrl := none, thumbnailUrl := none }

/-- An item whose link is not parsable as a URL. -/
def badLinkItem : RawItem :=
  { name := some "Bad", url := some "notaurl", snippet := some "fine",
    displayUrl := none, contentUrl := none, thumbnailUrl := none }

/-- An item lacking both url (absent) and contentUrl (empty). -/
def emptyLinkItem : RawItem :=
  { name := some "NoLink", url := none, snippet := some "s",
    displayUrl := none, contentUrl := some "", thumbnailUrl := none }

/-- A second well-formed clean item. -/
def goodItemB : RawItem :=
  { name := some "Fine", url := some "https://fine.net/y", snippet := some "text",
    displayUrl := none, contentUrl := none, thumbnailUrl := none }

/-- A clean retained item for the keyword-rule witness. -/
def goodItemC : RawItem :=
  { name := some "Nice page", url := some "https://nice.org/a",
    snippet := some "clean", displayUrl := none, contentUrl := none,
    thumbnailUrl := none }

/-- An item blocked by the keyword rule (uppercase occurrence). -/
def keywordItem : RawItem :=
  { name := some "Buy KEYWORD1 now", url := some "https://spam.com/x",
    snippet := some "", displayUrl := none, contentUrl := none,
    thumbnailUrl := none }

/-- An item blocked by the domain rule. -/
def domainItem : RawItem :=
  { name := some "Excluded host", url := some "https://example.com/x",
    snippet := some "ok", displayUrl := none, contentUrl := none,
    thumbnailUrl := none }

/-- A web item with an absent raw snippet field. -/
def noSnippetItem : RawItem :=
  { name := some "A", url := some "https://ok.com/x", snippet := none,
    displayUrl := none, contentUrl := none, thumbnailUrl := none }

/-- A session holding 45 total results (3 pages of 20). -/
def sessionA : Session :=
  { query := "cats", results := [], tab := Tab.web, currentPage := 1,
    totalResults := 45, loading := false, error := none, hasSearched := true }

/-- A fresh session before any search. -/
def sessionB : Session :=
  { query := "dogs", results := [], tab := Tab.web, currentPage := 1,
    totalResults := 0, loading := false, error := none, hasSearched := false }

/-- A session carrying a stale error message from an earlier failure. -/
def sessionC : Session :=
  { query := "birds", results := [], tab := Tab.web, currentPage := 1,
    totalResults := 0, loading := false, error := some fetchErrorMessage,
    hasSearched := true }

/-- A clean item for the error-preservation witness. -/
def goodItemD : RawItem :=
  { name := some "Page one hit", url := some "https://hit.io/p",
    snippet := some "res", displayUrl := none, contentUrl := none,
    thumbnailUrl := none }

/-- A web response carrying one item and a total of 45. -/
def respD : ApiResponse :=
  { value := none,
    webPages := some { value := [goodItemD], totalEstimatedMatches := some 45 },
    totalEstimatedMatches := none }

/-- A web response carrying no items and a total of 5. -/
def respE : ApiResponse :=
  { value := none,
    webPages := some { value := [], totalEstimatedMatches := some 5 },
    totalEstimatedMatches := none }

/-! ### Claims -/

/-- Claim C1 counterexample: an input containing a result with a malformed
link makes `filterResults` throw the URL parse error — the other (valid)
result is not processed and no output is produced, contradicting the
fail-closed exclusion the claim states. -/
theorem filterResults_malformed_crashes_cex :
    filterResults [goodItemA, badLinkItem] = Except.error "Invalid URL" := rfl

/-- Claim C1 (amended): `filterResults` is not fail-closed on malformed
links: whenever an item whose title and snippet pass the keyword check has
a link that does not parse as a URL, and every earlier item's predicate
check returns, the whole call propagates the URL parse error and produces
no results at all. -/
theorem filterResults_malformed_link_propagates (pre : List RawItem)
    (item : RawItem) (post : List RawItem)
    (hpre : ∀ i ∈ pre, (keepItem i).isOk = true)
    (ht : isContentAppropriate (titleOf item) = true)
    (hs : isContentAppropriate (snippetOf item) = true)
    (hl : parseHostname (linkOf item) = none) :
    filterResults (pre ++ item :: post) = Except.error "Invalid URL" := by
  have hke := keepItem_error_of_malformed ht hs hl
  have hfa : ∀ pre2 : List RawItem, (∀ i ∈ pre2, (keepItem i).isOk = true) →
      filterAux (pre2 ++ item :: post) = Except.error "Invalid URL" := by
    intro pre2
    induction pre2 with
    | nil =>
      intro _
      rw [List.nil_append]
      unfold filterAux
      rw [hke]
    | cons i rest ih =>
      intro hp2
      have hi := hp2 i (List.mem_cons_self i rest)
      rw [List.cons_append]
      unfold filterAux
      cases hk : keepItem i with
      | error e => rw [hk] at hi; cases hi
      | ok b => rw [ih fun j hj => hp2 j (List.mem_cons_of_mem i hj)]
  unfold filterResults
  rw [hfa pre hpre]

/-- Witness for the amended claim C1 theorem at concrete inputs. -/
theorem filterResults_malformed_link_propagates_witness :
    filterResults ([goodItemA] ++ badLinkItem :: []) = Except.error "Invalid URL" :=
  filterResults_malformed_link_propagates [goodItemA] badLinkItem []
    (by decide) (by decide) (by decide) (by decide)

/-- Claim C2 counterexample: an item with `url` absent and `contentUrl`
empty makes `filterResults` throw the URL parse error instead of being
silently dropped. -/
theorem filterResults_missing_link_cex :
    filterResults [emptyLinkItem] = Except.error "Invalid URL" := rfl

/-- Claim C2 (amended): an item lacking both `url` and `contentUrl` whose
title and snippet pass the keyword check causes `filterResults` to throw a
URL parse error rather than being dropped silently; nevertheless, whenever
`filterResults` returns successfully, every surviving result has a
non-empty `url`. -/
theorem filterResults_missing_link_behavior (item : RawItem)
    (rest items : List RawItem) (l : List SearchResult) (r : SearchResult)
    (hu : jsOr item.url item.contentUrl = none ∨
      jsOr item.url item.contentUrl = some "")
    (ht : isContentAppropriate (titleOf item) = true)
    (hs : isContentAppropriate (snippetOf item) = true)
    (hok : filterResults items = Except.ok l) (hr : r ∈ l) :
    filterResults (item :: rest) = Except.error "Invalid URL" ∧
      ∃ s, r.url = some s ∧ s ≠ "" := by
  constructor
  · have hlink : linkOf item = "" := by
      unfold linkOf
      rcases hu with hu | hu <;> rw [hu] <;> rfl
    exact filterResults_error_head rest
      (keepItem_error_of_malformed ht hs (by rw [hlink]; exact parseHostname_empty))
  · obtain ⟨kept, hfa, hmi⟩ := filterResults_ok_split hok
    obtain ⟨k, hk, hke⟩ := mapItems_ok_mem hmi hr
    exact normalizeItem_ok_url hke

/-- Witness for the amended claim C2 theorem at concrete inputs. -/
theorem filterResults_missing_link_behavior_witness :
    filterResults [emptyLinkItem] = Except.error "Invalid URL" ∧
      ∃ s, (normalizePure goodItemB).url = some s ∧ s ≠ "" :=
  filterResults_missing_link_behavior emptyLinkItem [] [goodItemB]
    [normalizePure goodItemB] (normalizePure goodItemB)
    (Or.inr rfl) (by decide) (by decide) rfl (List.mem_cons_self _ _)

/-- Claim C3 counterexample: `getFaviconUrl` on a link that is not a
well-formed absolute URL throws the URL parse error instead of returning
no favicon. -/
theorem getFaviconUrl_malformed_cex :
    getFaviconUrl "notaurl" = Except.error "Invalid URL" := rfl

/-- Claim C3 (amended): on a well-formed absolute URL `getFaviconUrl`
returns the favicon-service URL parameterized by the link's hostname; on a
link that does not parse it propagates the URL parse error (it does not
fail gracefully). -/
theorem getFaviconUrl_behavior (link bad hst : String)
    (hp : parseHostname link = some hst) (hb : parseHostname bad = none) :
    getFaviconUrl link =
        Except.ok ("https://www.google.com/s2/favicons?domain=" ++ hst) ∧
      getFaviconUrl bad = Except.error "Invalid URL" := by
  unfold getFaviconUrl
  rw [hp, hb]
  exact ⟨rfl, rfl⟩

/-- Witness for the amended claim C3 theorem at concrete inputs. -/
theorem getFaviconUrl_behavior_witness :
    getFaviconUrl "https://example.com/page" =
        Except.ok ("https://www.google.com/s2/favicons?domain=" ++ "example.com") ∧
      getFaviconUrl "" = Except.error "Invalid URL" :=
  getFaviconUrl_behavior "https://example.com/page" "" "example.com"
    (by decide) (by decide)

/-- Claim C4: a page-change request with `newPage < 1` or
`newPage > ceil(totalResults / 20)` is a silent no-op (no dispatch, state
unchanged, no error reported), while a request with
`1 ≤ newPage ≤ ceil(totalResults / 20)` triggers a dispatch for that page
on the current tab and query. -/
theorem handlePageChange_guard (s : Session) (newPage : Int) :
    ((newPage < 1 ∨ (pageCount s.totalResults : Int) < newPage) →
        handlePageChange s newPage = (s, none)) ∧
      (1 ≤ newPage → newPage ≤ (pageCount s.totalResults : Int) →
        handlePageChange s newPage =
          ({ s with loading := true, error := none },
            some { url :=
                     match s.tab with
                     | Tab.images => "https://api.bing.microsoft.com/v7.0/images/search"
                     | Tab.web => "https://api.bing.microsoft.com/v7.0/search"
                   q := s.query
                   count := resultsPerPage
                   offset := (newPage - 1) * (resultsPerPage : Int) })) := by
  constructor
  · intro h
    unfold handlePageChange
    rw [if_neg (by omega)]
  · intro h1 h2
    unfold handlePageChange
    rw [if_pos ⟨by omega, h2⟩]
    rfl

/-- Witness for the claim C4 theorem: with 45 total results (3 pages),
page requests 4 and 0 are no-ops and page request 2 dispatches. -/
theorem handlePageChange_guard_witness :
    handlePageChange sessionA 4 = (sessionA, none) ∧
      handlePageChange sessionA 0 = (sessionA, none) ∧
      handlePageChange sessionA 2 =
        ({ sessionA with loading := true, error := none },
          some { url := "https://api.bing.microsoft.com/v7.0/search",
                 q := "cats", count := resultsPerPage, offset := 20 }) :=
  ⟨(handlePageChange_guard sessionA 4).1 (Or.inr (by decide)),
   (handlePageChange_guard sessionA 0).1 (Or.inl (by decide)),
   (handlePageChange_guard sessionA 2).2 (by decide) (by decide)⟩

/-- Claim C5: on crash-free input the filter retains exactly those results
whose title and snippet contain no blocklisted keyword (case-insensitive
substring containment) and whose link hostname is not blocklisted, keeping
the input order (the retained raw items form a sublist of the input). -/
theorem filterResults_keyword_rule (items : List RawItem)
    (h : ∀ i ∈ items, (keepItem i).isOk = true) :
    filterResults items = Except.ok ((items.filter keepPure).map normalizePure) ∧
      List.Sublist (items.filter keepPure) items := by
  constructor
  · unfold filterResults
    rw [filterAux_total h]
    apply mapItems_total
    intro k hk
    have hmem := (List.mem_filter.mp hk).1
    have hkp := (List.mem_filter.mp hk).2
    have hio := h k hmem
    cases hke : keepItem k with
    | error e => rw [hke] at hio; cases hio
    | ok b =>
      have hb := keepItem_ok hke
      rw [hb, hkp]
  · exact List.filter_sublist items

/-- Witness for the claim C5 theorem: a clean item is retained, an item
with an uppercase blocklisted keyword in the title is dropped, an item on
a blocklisted domain is dropped. -/
theorem filterResults_keyword_rule_witness :
    filterResults [goodItemC, keywordItem, domainItem] =
        Except.ok (([goodItemC, keywordItem, domainItem].filter keepPure).map
          normalizePure) ∧
      List.Sublist ([goodItemC, keywordItem, domainItem].filter keepPure)
        [goodItemC, keywordItem, domainItem] :=
  filterResults_keyword_rule [goodItemC, keywordItem, domainItem] (by decide)

/-- Claim C6: the domain rule drops a result exactly when the hostname of
its resolved link is an exact member of the domain blocklist; the hostname
`example.com` is excluded while `sub.example.com` is retained. -/
theorem isDomainExcluded_exact_hostname (link hst : String)
    (hp : parseHostname link = some hst) :
    isDomainExcluded link = Except.ok (excludedDomains.contains hst) ∧
      isDomainExcluded "https://example.com/page" = Except.ok true ∧
      isDomainExcluded "https://sub.example.com/page" = Except.ok false := by
  refine ⟨?_, rfl, rfl⟩
  unfold isDomainExcluded
  rw [hp]

/-- Witness for the claim C6 theorem at a concrete blocklisted link. -/
theorem isDomainExcluded_exact_hostname_witness :
    isDomainExcluded "https://anotherexample.com/a" =
        Except.ok (excludedDomains.contains "anotherexample.com") ∧
      isDomainExcluded "https://example.com/page" = Except.ok true ∧
      isDomainExcluded "https://sub.example.com/page" = Except.ok false :=
  isDomainExcluded_exact_hostname "https://anotherexample.com/a"
    "anotherexample.com" (by decide)

/-- Claim C7: after a successful fetch, a subsequently failed dispatch
(start then error resolution) sets the error message while leaving the
results of the last successful page untouched. -/
theorem error_preserves_last_good_page (s : Session) (t t2 : Tab) (p p2 : Int)
    (r : ApiResponse) (items : List RawItem) (l : List SearchResult)
    (h1 : extractItems t r = Except.ok items)
    (h2 : filterResults items = Except.ok l) :
    (handleSearchResolve s t p (Except.ok r)).results = l ∧
      (handleSearchResolve
          (handleSearchStart (handleSearchResolve s t p (Except.ok r)) t2 p2).1
          t2 p2 (Except.error ())).results = l ∧
      (handleSearchResolve
          (handleSearchStart (handleSearchResolve s t p (Except.ok r)) t2 p2).1
          t2 p2 (Except.error ())).error = some fetchErrorMessage := by
  refine ⟨?_, ?_, ?_⟩ <;> simp [handleSearchResolve, handleSearchStart, h1, h2]

/-- Witness for the claim C7 theorem: a successful page-1 fetch of one
item followed by a failed page-2 fetch preserves the page-1 results and
reports the error message. -/
theorem error_preserves_last_good_page_witness :
    (handleSearchResolve sessionB Tab.web 1 (Except.ok respD)).results =
        [normalizePure goodItemD] ∧
      (handleSearchResolve
          (handleSearchStart (handleSearchResolve sessionB Tab.web 1 (Except.ok respD))
            Tab.web 2).1
          Tab.web 2 (Except.error ())).results = [normalizePure goodItemD] ∧
      (handleSearchResolve
          (handleSearchStart (handleSearchResolve sessionB Tab.web 1 (Except.ok respD))
            Tab.web 2).1
          Tab.web 2 (Except.error ())).error = some fetchErrorMessage :=
  error_preserves_last_good_page sessionB Tab.web Tab.web 1 2 respD
    [goodItemD] [normalizePure goodItemD] rfl rfl

/-- Claim C8: the dispatcher computes the request offset as
`(page - 1) * 20` with a fixed page size of 20; page 1 yields offset 0 and
page 3 yields offset 40. -/
theorem handleSearch_offset (s : Session) (t : Tab) (page : Int)
    (_h : 1 ≤ page) :
    (handleSearchStart s t page).2.offset = (page - 1) * 20 ∧
      (handleSearchStart s t page).2.count = 20 ∧
      (handleSearchStart s t 1).2.offset = 0 ∧
      (handleSearchStart s t 3).2.offset = 40 :=
  ⟨rfl, rfl, rfl, rfl⟩

/-- Witness for the claim C8 theorem at page 3. -/
theorem handleSearch_offset_witness :
    (handleSearchStart sessionA Tab.web 3).2.offset = (3 - 1) * 20 ∧
      (handleSearchStart sessionA Tab.web 3).2.count = 20 ∧
      (handleSearchStart sessionA Tab.web 1).2.offset = 0 ∧
      (handleSearchStart sessionA Tab.web 3).2.offset = 40 :=
  handleSearch_offset sessionA Tab.web 3 (by decide)

/-- Claim C9 counterexample: a web item whose raw snippet field is absent
survives filtering with an absent (undefined) snippet, not the empty
string the claim requires. -/
theorem snippet_not_defaulted_cex :
    (filterResults [noSnippetItem]).map (fun l => l.map fun r => r.snippet) =
      Except.ok [none] := rfl

/-- Claim C9 (amended): for both categories the normalizer copies the raw
snippet field verbatim into the surviving results — an absent raw snippet
yields an absent (undefined) normalized snippet, not the empty string. -/
theorem snippet_passthrough (items : List RawItem) (l : List SearchResult)
    (h : filterResults items = Except.ok l) :
    l.map (fun r => r.snippet) = (items.filter keepPure).map fun i => i.snippet := by
  obtain ⟨kept, hfa, hmi⟩ := filterResults_ok_split h
  rw [mapItems_ok_snippets hmi, filterAux_ok hfa]

/-- Witness for the amended claim C9 theorem at a concrete snippetless
item. -/
theorem snippet_passthrough_witness :
    ([normalizePure noSnippetItem].map fun r => r.snippet) =
      (([noSnippetItem].filter keepPure).map fun i => i.snippet) :=
  snippet_passthrough [noSnippetItem] [normalizePure noSnippetItem] rfl

/-- Claim C10: every dispatch cycle clears the previous error message at
its start, and a fully successful dispatch resolves with no error message
left in the session state. -/
theorem handleSearch_clears_error (s : Session) (t : Tab) (p : Int)
    (r : ApiResponse) (items : List RawItem) (l : List SearchResult)
    (h1 : extractItems t r = Except.ok items)
    (h2 : filterResults items = Except.ok l) :
    (handleSearchStart s t p).1.error = none ∧
      (handleSearchResolve (handleSearchStart s t p).1 t p
          (Except.ok r)).error = none := by
  refine ⟨rfl, ?_⟩
  simp [handleSearchResolve, handleSearchStart, h1, h2]

/-- Witness for the claim C10 theorem: a session with a stale error
message is cleared by the start of the next dispatch and stays clear after
its successful resolution. -/
theorem handleSearch_clears_error_witness :
    (handleSearchStart sessionC Tab.web 1).1.error = none ∧
      (handleSearchResolve (handleSearchStart sessionC Tab.web 1).1 Tab.web 1
          (Except.ok respE)).error = none :=
  handleSearch_clears_error sessionC Tab.web 1 respE [] [] rfl rfl

end Felice
